import Mathlib

/-!
# Verification of the `Result` reporting core of ALNS_vrptw

Shallow embedding of `src/alns/Result.py`: the `Result` holder for a best
state plus optional collected statistics, and its chart-building methods
`plot_objectives`, `plot_operator_weights`, `plot_operator_counts` and the
static helper `_plot_op_counts`.

Numeric modelling: objective values and weights are IEEE doubles in the
source; the operations performed on them here (plain copying and pairwise
`min`) are exact, so they are modelled as rationals.  Outcome counts are
non-negative integers (Python ints collected per iteration), modelled as
`ℕ`; the subtraction `cumulative - width` in `_plot_op_counts` never
underflows because `cumulative[k]` is a sum that includes `counts[k]`.

Ordered mappings (`dict` in the Python source) are modelled as association
lists, which preserve insertion order.
-/

set_option autoImplicit false

namespace ALNS

/-- Modelled from the spec: the telemetry carried by `alns.Statistics`
(`src/alns/Statistics.py` is not among the sources; only its consumer
`Result.py` is).  Per the spec data model it exposes `objectives` (one
numeric value per iteration), `destroyWeights` / `repairWeights` (ordered
mapping from operator name to weight series) and `destroyOutcomeCounts` /
`repairOutcomeCounts` (ordered mapping from operator name to a fixed
4-entry count vector).  The field `truthy` records the Python boolean
conversion `bool(obj)` of the statistics object, which `Result.statistics`
consults via `if not self._statistics`; the class being outside the given
sources, its truthiness is kept abstract as a field. -/
structure Statistics where
  truthy : Bool
  objectives : List ℚ
  destroy_weights : List (String × List ℚ)
  repair_weights : List (String × List ℚ)
  destroy_operator_counts : List (String × List ℕ)
  repair_operator_counts : List (String × List ℕ)
  deriving Repr, DecidableEq

/-- Constructor `Result.__init__`: stores the best state and the (optional) statistics. -/
structure Result (State : Type) where
  best : State
  stats : Option Statistics

/-- Property `Result.best_state`: returns the stored best state. -/
def Result.best_state {State : Type} (r : Result State) : State :=
  r.best

/-- The message of the `ValueError` raised by `Result.statistics`. -/
def noStatisticsMessage : String :=
  "No statistics collected during this run."

/-- Property `Result.statistics`: `if not self._statistics: raise ValueError(...)`,
else return the stored statistics.  Python's `not` on the optional field is
falsy exactly when the field is `None` or the stored object's boolean
conversion is `False`. -/
def Result.statistics {State : Type} (r : Result State) : Except String Statistics :=
  match r.stats with
  | none => .error noStatisticsMessage
  | some s => if s.truthy then .ok s else .error noStatisticsMessage

/-! ## `plot_objectives` -/

/-- The two data series drawn by `plot_objectives`: the first `ax.plot` call
receives the objectives unchanged, the second their running minimum. -/
structure TrajectorySeries where
  current : List ℚ
  runningBest : List ℚ
  deriving Repr, DecidableEq

/-- Carry-passing core of `np.minimum.accumulate`: `out[i] = min(out[i-1], a[i])`. -/
def minAccumGo (acc : ℚ) : List ℚ → List ℚ
  | [] => []
  | x :: xs => min acc x :: minAccumGo (min acc x) xs

/-- NumPy `np.minimum.accumulate`: first output element is the first input element,
each later one the minimum of the previous output and the current input. -/
def minimumAccumulate : List ℚ → List ℚ
  | [] => []
  | x :: xs => x :: minAccumGo x xs

/-- The chart data built by `Result.plot_objectives` (lines 70–71): the
current objective series and its running minimum.  Axis and legend labels
are fixed by the source. -/
def plot_objectives (objectives : List ℚ) : TrajectorySeries :=
  { current := objectives
    runningBest := minimumAccumulate objectives }

/-- Legend labels of `plot_objectives`, in source order. -/
def objectivesLegend : List String :=
  ["Current", "Best"]

/-! ## `plot_operator_weights` -/

/-- Modelled from the spec: the inner `plot` helper of
`plot_operator_weights` iterates the telemetry's weight data and issues one
`ax.plot(w)` per weight series, in order.  The weight data's concrete shape
lives in the missing `Statistics.py`; per the spec (§3, §4.3, §9) it is an
ordered mapping from operator name to weight series, consumed in insertion
order with the series values rendered and no operator name attached (the
source marks the missing names with a `TODO`). -/
def weightSeriesOf (weights : List (String × List ℚ)) : List (List ℚ) :=
  weights.map (fun p => p.2)

/-- The two panels built by `Result.plot_operator_weights`: destroy weights
on the first axes, repair weights on the second. -/
def plot_operator_weights (s : Statistics) : List (List ℚ) × List (List ℚ) :=
  (weightSeriesOf s.destroy_weights, weightSeriesOf s.repair_weights)

/-! ## `plot_operator_counts` and `_plot_op_counts` -/

/-- Row-wise `np.cumsum` with an explicit carry. -/
def cumsumFrom (acc : ℕ) : List ℕ → List ℕ
  | [] => []
  | x :: xs => (acc + x) :: cumsumFrom (acc + x) xs

/-- NumPy `np.cumsum` over one operator's (sliced) count row:
`cumulative[k] = counts[0] + ... + counts[k]`. -/
def cumsum (l : List ℕ) : List ℕ :=
  cumsumFrom 0 l

/-- Array `cumulative_counts` of `_plot_op_counts` for one operator:
`operator_counts[:, :num_types].cumsum(axis=1)`. -/
def cumulativeCounts (counts : List ℕ) (numTypes : ℕ) : List ℕ :=
  cumsum (counts.take numTypes)

/-- The bar widths drawn for one operator: `widths = operator_counts[:, idx]`
for each `idx in range(num_types)`. -/
def segmentWidths (counts : List ℕ) (numTypes : ℕ) : List ℕ :=
  (List.range numTypes).map (fun idx => counts.getD idx 0)

/-- The bar offsets drawn for one operator:
`starts = cumulative_counts[:, idx] - widths` for each `idx`. -/
def segmentStarts (counts : List ℕ) (numTypes : ℕ) : List ℕ :=
  (List.range numTypes).map
    (fun idx => (cumulativeCounts counts numTypes).getD idx 0 - counts.getD idx 0)

/-- The labels attached for one operator: for each `idx`, `ax.text` places
the numeric count (`str(label)` with `label = widths`) at horizontal
position `starts + widths / 2`.  Positions are rational because of the
floating-point halving. -/
def segmentLabels (counts : List ℕ) (numTypes : ℕ) : List (ℕ × ℚ) :=
  (List.range numTypes).map
    (fun idx =>
      (counts.getD idx 0,
       (((cumulativeCounts counts numTypes).getD idx 0 - counts.getD idx 0 : ℕ) : ℚ)
         + (counts.getD idx 0 : ℚ) / 2))

/-- The stacked-bar data `_plot_op_counts` produces for one operator. -/
structure OutcomeBars where
  operatorName : String
  widths : List ℕ
  starts : List ℕ
  labels : List (ℕ × ℚ)
  deriving Repr, DecidableEq

/-- One operator's entry of the bar chart. -/
def opOutcomeBars (name : String) (counts : List ℕ) (numTypes : ℕ) : OutcomeBars :=
  { operatorName := name
    widths := segmentWidths counts numTypes
    starts := segmentStarts counts numTypes
    labels := segmentLabels counts numTypes }

/-- Axis bound `ax.set_xlim(right=cumulative_counts[:, -1].max())`: the largest final
cumulative value across all operators (`none` when there are no operators,
where the NumPy source would fail on an empty reduction). -/
def sharedXMax (ops : List (String × List ℕ)) (numTypes : ℕ) : Option ℕ :=
  (ops.map (fun p => (cumulativeCounts p.2 numTypes).getLastD 0)).max?

/-- Everything `_plot_op_counts` draws on one axes object: the shared
horizontal limit and one `OutcomeBars` per operator, in mapping order. -/
structure OpCountsPanel where
  xlimRight : Option ℕ
  bars : List OutcomeBars
  deriving Repr, DecidableEq

/-- Helper `Result._plot_op_counts` on one axes. -/
def plotOpCounts (ops : List (String × List ℕ)) (numTypes : ℕ) : OpCountsPanel :=
  { xlimRight := sharedXMax ops numTypes
    bars := ops.map (fun p => opOutcomeBars p.1 p.2 numTypes) }

/-- The default legend installed when the caller passes none. -/
def defaultLegend : List String :=
  ["Best", "Better", "Accepted", "Rejected"]

/-- The `ValueError` message for an over-long legend, naming the offending
count: `"Legend not understood. Expected at most 4 items, found {0}."`. -/
def invalidLegendMessage (n : ℕ) : String :=
  "Legend not understood. Expected at most 4 items, found " ++ toString n ++ "."

/-- Legend resolution of `plot_operator_counts` (lines 153–157): `None`
becomes the default four labels; a caller-supplied legend longer than four
raises before anything else happens. -/
def resolveLegend : Option (List String) → Except String (List String)
  | none => .ok defaultLegend
  | some l =>
      if 4 < l.length then .error (invalidLegendMessage l.length)
      else .ok l

/-- The chart `plot_operator_counts` builds: the resolved legend and the
destroy / repair panels, each drawn with `num_types = len(legend)`. -/
structure OpCountsChart where
  legend : List String
  destroyPanel : OpCountsPanel
  repairPanel : OpCountsPanel
  deriving Repr, DecidableEq

/-- Method `Result.plot_operator_counts`: resolve the legend, then call
`_plot_op_counts` on the destroy and repair counts with `len(legend)` count
types.  The legend error aborts before either panel is built. -/
def plot_operator_counts (s : Statistics) (legend : Option (List String)) :
    Except String OpCountsChart :=
  match resolveLegend legend with
  | .error e => .error e
  | .ok lg =>
      .ok { legend := lg
            destroyPanel := plotOpCounts s.destroy_operator_counts lg.length
            repairPanel := plotOpCounts s.repair_operator_counts lg.length }

/-! ## Concrete sample data -/

/-- A statistics object that was supplied but whose Python boolean
conversion is `False` — e.g. an empty container-like statistics object
(what `bool(obj)` yields is fixed by the class, which is outside the given
sources). -/
def falsyStats : Statistics :=
  { truthy := false
    objectives := []
    destroy_weights := []
    repair_weights := []
    destroy_operator_counts := []
    repair_operator_counts := [] }

/-- A supplied statistics object whose boolean conversion is `True` (the
behaviour of any ordinary Python object). -/
def truthyStats : Statistics :=
  { falsyStats with truthy := true }

/-! ## Helper lemmas -/

theorem minAccumGo_length (l : List ℚ) : ∀ acc : ℚ, (minAccumGo acc l).length = l.length := by
  induction l with
  | nil => intro acc; rfl
  | cons x xs ih => intro acc; simp [minAccumGo, ih]

theorem minimumAccumulate_length (l : List ℚ) :
    (minimumAccumulate l).length = l.length := by
  cases l with
  | nil => rfl
  | cons x xs => simp [minimumAccumulate, minAccumGo_length]

theorem minAccumGo_getElem? (l : List ℚ) :
    ∀ (acc : ℚ) (i : ℕ), i < l.length →
      (minAccumGo acc l)[i]? = some ((l.take (i + 1)).foldl min acc) := by
  induction l with
  | nil => intro acc i h; exact absurd h (by simp)
  | cons x xs ih =>
      intro acc i h
      cases i with
      | zero => simp [minAccumGo]
      | succ j =>
          have hj : j < xs.length := by simpa using h
          simpa [minAccumGo, List.take_succ_cons] using ih (min acc x) j hj

theorem foldl_min_eq_elim (x : ℚ) (t : List ℚ) :
    t.foldl min x = t.min?.elim x (min x) := by
  rw [List.foldl_min]
  cases hm : t.min? with
  | none => simp
  | some m => simp

theorem minimumAccumulate_getElem? (l : List ℚ) (i : ℕ) (h : i < l.length) :
    (minimumAccumulate l)[i]? = (l.take (i + 1)).min? := by
  cases l with
  | nil => exact absurd h (by simp)
  | cons x xs =>
      cases i with
      | zero =>
          rw [show minimumAccumulate (x :: xs) = x :: minAccumGo x xs from rfl,
            List.getElem?_cons_zero, List.take_succ_cons, List.take_zero,
            List.min?_cons]
          simp
      | succ j =>
          have hj : j < xs.length := by simpa using h
          rw [show minimumAccumulate (x :: xs) = x :: minAccumGo x xs from rfl,
            List.getElem?_cons_succ, minAccumGo_getElem? xs x j hj,
            List.take_succ_cons, List.min?_cons]
          exact congrArg some (foldl_min_eq_elim x (xs.take (j + 1)))

theorem minAccumGo_chain (l : List ℚ) :
    ∀ acc : ℚ, List.Chain' (fun a b => b ≤ a) (acc :: minAccumGo acc l) := by
  induction l with
  | nil => intro acc; exact List.chain'_singleton acc
  | cons x xs ih =>
      intro acc
      rw [show minAccumGo acc (x :: xs) = min acc x :: minAccumGo (min acc x) xs from rfl,
        List.chain'_cons]
      exact ⟨min_le_left acc x, ih (min acc x)⟩

theorem minimumAccumulate_antitone (l : List ℚ) :
    List.Chain' (fun a b => b ≤ a) (minimumAccumulate l) := by
  cases l with
  | nil => exact List.chain'_nil
  | cons x xs =>
      show List.Chain' (fun a b => b ≤ a) (x :: minAccumGo x xs)
      exact minAccumGo_chain xs x

theorem cumsumFrom_length (l : List ℕ) : ∀ acc : ℕ, (cumsumFrom acc l).length = l.length := by
  induction l with
  | nil => intro acc; rfl
  | cons x xs ih => intro acc; simp [cumsumFrom, ih]

theorem cumsumFrom_getElem? (l : List ℕ) :
    ∀ (acc k : ℕ), k < l.length →
      (cumsumFrom acc l)[k]? = some (acc + (l.take (k + 1)).sum) := by
  induction l with
  | nil => intro acc k h; exact absurd h (by simp)
  | cons x xs ih =>
      intro acc k h
      cases k with
      | zero => simp [cumsumFrom]
      | succ j =>
          have hj : j < xs.length := by simpa using h
          have := ih (acc + x) j hj
          simp only [cumsumFrom, List.getElem?_cons_succ, this, List.take_succ_cons,
            List.sum_cons]
          exact congrArg some (by omega)

theorem cumsum_getElem? (l : List ℕ) (k : ℕ) (h : k < l.length) :
    (cumsum l)[k]? = some ((l.take (k + 1)).sum) := by
  simpa [cumsum] using cumsumFrom_getElem? l 0 k h

theorem cumsumFrom_getLastD (l : List ℕ) :
    ∀ (x acc d : ℕ), (cumsumFrom acc (x :: l)).getLastD d = acc + x + l.sum := by
  induction l with
  | nil => intro x acc d; simp [cumsumFrom]
  | cons y ys ih =>
      intro x acc d
      rw [show cumsumFrom acc (x :: y :: ys) = (acc + x) :: cumsumFrom (acc + x) (y :: ys)
        from rfl, List.getLastD_cons, ih y (acc + x) (acc + x), List.sum_cons]
      omega

theorem cumulativeCounts_getD (counts : List ℕ) (numTypes k : ℕ)
    (hk : k < numTypes) (hn : numTypes ≤ counts.length) :
    (cumulativeCounts counts numTypes).getD k 0 = (counts.take (k + 1)).sum := by
  have hlen : k < (counts.take numTypes).length := by
    rw [List.length_take]; omega
  have h := cumsum_getElem? (counts.take numTypes) k hlen
  have hmin : (k + 1) ⊓ numTypes = k + 1 := by omega
  rw [cumulativeCounts, List.getD_eq_getElem?_getD, h, Option.getD_some,
    List.take_take, hmin]

theorem take_succ_sum (l : List ℕ) (k : ℕ) (hk : k < l.length) :
    (l.take (k + 1)).sum = (l.take k).sum + l.getD k 0 := by
  rw [List.take_succ, List.sum_append, List.getElem?_eq_getElem hk,
    List.getD_eq_getElem?_getD, List.getElem?_eq_getElem hk]
  simp

theorem take_sum_le_succ (l : List ℕ) (k : ℕ) :
    (l.take k).sum ≤ (l.take (k + 1)).sum := by
  rw [List.take_succ, List.sum_append]
  exact Nat.le_add_right _ _

theorem segmentWidths_getElem? (counts : List ℕ) (numTypes k : ℕ) (hk : k < numTypes) :
    (segmentWidths counts numTypes)[k]? = some (counts.getD k 0) := by
  rw [segmentWidths, List.getElem?_map, List.getElem?_range hk, Option.map_some']

theorem startsValue (counts : List ℕ) (numTypes k : ℕ)
    (hk : k < numTypes) (hn : numTypes ≤ counts.length) :
    (cumulativeCounts counts numTypes).getD k 0 - counts.getD k 0
      = (counts.take k).sum := by
  rw [cumulativeCounts_getD counts numTypes k hk hn,
    take_succ_sum counts k (by omega)]
  exact Nat.add_sub_cancel ..

theorem segmentStarts_getElem? (counts : List ℕ) (numTypes k : ℕ)
    (hk : k < numTypes) (hn : numTypes ≤ counts.length) :
    (segmentStarts counts numTypes)[k]? = some ((counts.take k).sum) := by
  rw [segmentStarts, List.getElem?_map, List.getElem?_range hk, Option.map_some']
  exact congrArg some (startsValue counts numTypes k hk hn)

theorem segmentLabels_getElem? (counts : List ℕ) (numTypes k : ℕ)
    (hk : k < numTypes) (hn : numTypes ≤ counts.length) :
    (segmentLabels counts numTypes)[k]? =
      some (counts.getD k 0,
        (((counts.take k).sum : ℕ) : ℚ) + (counts.getD k 0 : ℚ) / 2) := by
  rw [segmentLabels, List.getElem?_map, List.getElem?_range hk, Option.map_some']
  have hv := startsValue counts numTypes k hk hn
  exact congrArg some (by rw [hv])

theorem cumulativeCounts_getLastD (counts : List ℕ) (numTypes : ℕ)
    (h1 : 1 ≤ numTypes) (hn : numTypes ≤ counts.length) :
    (cumulativeCounts counts numTypes).getLastD 0 = (counts.take numTypes).sum := by
  have hne : counts.take numTypes ≠ [] := by
    rw [Ne, List.take_eq_nil_iff]
    rintro (h0 | h0)
    · omega
    · rw [h0] at hn
      simp at hn
      omega
  obtain ⟨x, t, hxt⟩ := List.exists_cons_of_ne_nil hne
  rw [cumulativeCounts, hxt, cumsum, cumsumFrom_getLastD t x 0 0, List.sum_cons]
  omega

/-! ## Claim theorems -/

/-- Claim C1: for every operator-counts mapping with 4-entry count vectors
and every `numTypes` in `[1,4]`, the outcome-bar builder gives each operator
at each type index `k < numTypes` a segment of width `counts[k]` starting at
`cumulative[k] - counts[k]`, which equals the sum of the strictly earlier
counts, and attaches a label equal to the numeric count centered at
`segmentStarts[k] + segmentWidths[k] / 2`; the panel holds one such bar
entry per operator, in mapping order. -/
theorem outcome_bar_segments_spec (name : String) (counts : List ℕ)
    (numTypes k : ℕ) (hlen : counts.length = 4) (h1 : 1 ≤ numTypes)
    (h4 : numTypes ≤ 4) (hk : k < numTypes) :
    (opOutcomeBars name counts numTypes).widths[k]? = counts[k]?
    ∧ (opOutcomeBars name counts numTypes).starts[k]?
        = some ((cumulativeCounts counts numTypes).getD k 0 - counts.getD k 0)
    ∧ (cumulativeCounts counts numTypes).getD k 0 - counts.getD k 0
        = (counts.take k).sum
    ∧ (opOutcomeBars name counts numTypes).labels[k]?
        = some (counts.getD k 0,
            (((counts.take k).sum : ℕ) : ℚ) + (counts.getD k 0 : ℚ) / 2)
    ∧ ∀ ops : List (String × List ℕ),
        (plotOpCounts ops numTypes).bars
          = ops.map (fun p => opOutcomeBars p.1 p.2 numTypes) := by
  have hkc : k < counts.length := by omega
  refine ⟨?_, ?_, startsValue counts numTypes k hk (by omega), ?_, fun ops => rfl⟩
  · rw [show (opOutcomeBars name counts numTypes).widths
        = segmentWidths counts numTypes from rfl,
      segmentWidths_getElem? counts numTypes k hk,
      List.getElem?_eq_getElem hkc, List.getD_eq_getElem?_getD,
      List.getElem?_eq_getElem hkc, Option.getD_some]
  · rw [show (opOutcomeBars name counts numTypes).starts
        = segmentStarts counts numTypes from rfl,
      segmentStarts, List.getElem?_map, List.getElem?_range hk, Option.map_some']
  · rw [show (opOutcomeBars name counts numTypes).labels
        = segmentLabels counts numTypes from rfl]
    exact segmentLabels_getElem? counts numTypes k hk (by omega)

/-- Witness for C1 at the spec example `counts = [3,1,2,0]`, `numTypes = 4`,
`k = 1`. -/
theorem outcome_bar_segments_witness :
    (opOutcomeBars "a" [3, 1, 2, 0] 4).widths[1]? = ([3, 1, 2, 0] : List ℕ)[1]?
    ∧ (opOutcomeBars "a" [3, 1, 2, 0] 4).starts[1]?
        = some ((cumulativeCounts [3, 1, 2, 0] 4).getD 1 0
            - ([3, 1, 2, 0] : List ℕ).getD 1 0)
    ∧ (cumulativeCounts [3, 1, 2, 0] 4).getD 1 0
          - ([3, 1, 2, 0] : List ℕ).getD 1 0
        = (([3, 1, 2, 0] : List ℕ).take 1).sum
    ∧ (opOutcomeBars "a" [3, 1, 2, 0] 4).labels[1]?
        = some (([3, 1, 2, 0] : List ℕ).getD 1 0,
            (((([3, 1, 2, 0] : List ℕ).take 1).sum : ℕ) : ℚ)
              + (([3, 1, 2, 0] : List ℕ).getD 1 0 : ℚ) / 2)
    ∧ ∀ ops : List (String × List ℕ),
        (plotOpCounts ops 4).bars = ops.map (fun p => opOutcomeBars p.1 p.2 4) :=
  outcome_bar_segments_spec "a" [3, 1, 2, 0] 4 1 (by decide) (by decide)
    (by decide) (by decide)

/-- Claim C2: for every objectives sequence of length `n`, the trajectory
builder returns a running-best series of length `n` whose entry `i` is the
minimum of `objectives[0..i]` (hence the series is non-increasing), while
the current series is the input unchanged. -/
theorem trajectory_running_best_spec (objectives : List ℚ) :
    (plot_objectives objectives).current = objectives
    ∧ (plot_objectives objectives).runningBest.length = objectives.length
    ∧ (∀ i : ℕ, i < objectives.length →
        (plot_objectives objectives).runningBest[i]? = (objectives.take (i + 1)).min?)
    ∧ List.Chain' (fun a b => b ≤ a) (plot_objectives objectives).runningBest :=
  ⟨rfl, minimumAccumulate_length objectives,
    fun i h => minimumAccumulate_getElem? objectives i h,
    minimumAccumulate_antitone objectives⟩

/-- Witness for C2 at the spec example `objectives = [5,3,4,2,6]`, `i = 3`. -/
theorem trajectory_running_best_witness :
    (plot_objectives [5, 3, 4, 2, 6]).runningBest[3]?
      = (([5, 3, 4, 2, 6] : List ℚ).take 4).min? :=
  (trajectory_running_best_spec [5, 3, 4, 2, 6]).2.2.1 3 (by
    simp)

/-- Claim C3: a caller-supplied legend with more than 4 entries makes the
outcome-bar chart call fail with the invalid-legend error, whose message
names the offending count, and no bar data appears in the outcome; with no
legend supplied, the default legend is `["Best","Better","Accepted",
"Rejected"]` and any accepted legend is used with `numTypes` equal to its
length. -/
theorem legend_validation_spec (s : Statistics) (legend : List String)
    (h : 4 < legend.length) :
    plot_operator_counts s (some legend)
        = .error (invalidLegendMessage legend.length)
    ∧ invalidLegendMessage legend.length
        = "Legend not understood. Expected at most 4 items, found "
            ++ toString legend.length ++ "."
    ∧ plot_operator_counts s none
        = .ok { legend := defaultLegend
                destroyPanel :=
                  plotOpCounts s.destroy_operator_counts defaultLegend.length
                repairPanel :=
                  plotOpCounts s.repair_operator_counts defaultLegend.length }
    ∧ defaultLegend = ["Best", "Better", "Accepted", "Rejected"]
    ∧ defaultLegend.length = 4
    ∧ ∀ lg : List String, lg.length ≤ 4 →
        plot_operator_counts s (some lg)
          = .ok { legend := lg
                  destroyPanel := plotOpCounts s.destroy_operator_counts lg.length
                  repairPanel := plotOpCounts s.repair_operator_counts lg.length } := by
  refine ⟨?_, rfl, rfl, rfl, rfl, ?_⟩
  · simp [plot_operator_counts, resolveLegend, h]
  · intro lg hlg
    simp [plot_operator_counts, resolveLegend, Nat.not_lt.mpr hlg]

/-- Witness for C3: a five-entry legend is rejected with a message naming 5. -/
theorem legend_validation_witness :
    plot_operator_counts truthyStats (some ["a", "b", "c", "d", "e"])
        = .error (invalidLegendMessage 5)
    ∧ invalidLegendMessage 5
        = "Legend not understood. Expected at most 4 items, found "
            ++ toString 5 ++ "." := by
  have h := legend_validation_spec truthyStats ["a", "b", "c", "d", "e"] (by decide)
  exact ⟨h.1, h.2.1⟩

/-- Claim C4: for every non-empty operator-counts mapping with 4-entry
count vectors and `numTypes` in `[1,4]`, the shared horizontal-axis upper
bound equals the maximum over all operators of `cumulative[numTypes-1]`
(which is the sum of that operator's first `numTypes` counts), and the
bound exists. -/
theorem shared_xmax_spec (ops : List (String × List ℕ)) (numTypes : ℕ)
    (hne : ops ≠ []) (hlen : ∀ p ∈ ops, (p.2 : List ℕ).length = 4)
    (h1 : 1 ≤ numTypes) (h4 : numTypes ≤ 4) :
    (plotOpCounts ops numTypes).xlimRight
      = (ops.map (fun p => ((p.2 : List ℕ).take numTypes).sum)).max?
    ∧ (∀ p ∈ ops, (cumulativeCounts p.2 numTypes).getD (numTypes - 1) 0
        = ((p.2 : List ℕ).take numTypes).sum)
    ∧ ∃ m, (plotOpCounts ops numTypes).xlimRight = some m := by
  have hmain : (plotOpCounts ops numTypes).xlimRight
      = (ops.map (fun p => ((p.2 : List ℕ).take numTypes).sum)).max? := by
    rw [show (plotOpCounts ops numTypes).xlimRight = sharedXMax ops numTypes from rfl,
      sharedXMax]
    congr 1
    refine List.map_congr_left (fun p hp => ?_)
    exact cumulativeCounts_getLastD p.2 numTypes h1 (by rw [hlen p hp]; omega)
  refine ⟨hmain, fun p hp => ?_, ?_⟩
  · have hk : numTypes - 1 < numTypes := by omega
    have hn : numTypes ≤ (p.2 : List ℕ).length := by rw [hlen p hp]; omega
    rw [cumulativeCounts_getD p.2 numTypes (numTypes - 1) hk hn]
    congr 2
    omega
  · rcases hopt : (ops.map (fun p => ((p.2 : List ℕ).take numTypes).sum)).max? with _ | m
    · rw [List.max?_eq_none_iff] at hopt
      exact absurd (List.map_eq_nil_iff.mp hopt) hne
    · exact ⟨m, by rw [hmain, hopt]⟩

/-- Witness for C4 on a two-operator mapping with `numTypes = 4`. -/
theorem shared_xmax_witness :
    (plotOpCounts [("a", [3, 1, 2, 0]), ("b", [1, 1, 1, 1])] 4).xlimRight
        = ([("a", [3, 1, 2, 0]), ("b", [1, 1, 1, 1])].map
            (fun p => ((p.2 : List ℕ).take 4).sum)).max?
    ∧ ∃ m, (plotOpCounts [("a", [3, 1, 2, 0]), ("b", [1, 1, 1, 1])] 4).xlimRight
        = some m := by
  have h := shared_xmax_spec [("a", [3, 1, 2, 0]), ("b", [1, 1, 1, 1])] 4
    (by decide) (by decide) (by decide) (by decide)
  exact ⟨h.1, h.2.2⟩

/-- Claim C5: for a legend of length `m` with `1 ≤ m < 4`, the outcome-bar
builder uses only the first `m` entries of each operator's count vector:
two vectors agreeing on their first `m` entries yield the same cumulative
sums and the same bar data, so the remaining `4 - m` counts are ignored. -/
theorem first_num_types_only_spec (name : String) (counts counts' : List ℕ)
    (m : ℕ) (h1 : 1 ≤ m) (hm : m < 4)
    (hagree : counts.take m = counts'.take m) :
    opOutcomeBars name counts m = opOutcomeBars name counts' m
    ∧ cumulativeCounts counts m = cumulativeCounts counts' m := by
  have hcum : cumulativeCounts counts m = cumulativeCounts counts' m := by
    rw [cumulativeCounts, cumulativeCounts, hagree]
  have hgd : ∀ idx, idx < m → counts.getD idx 0 = counts'.getD idx 0 := by
    intro idx hidx
    have e1 : (counts.take m)[idx]? = counts[idx]? := by
      rw [List.getElem?_take, if_pos hidx]
    have e2 : (counts'.take m)[idx]? = counts'[idx]? := by
      rw [List.getElem?_take, if_pos hidx]
    rw [List.getD_eq_getElem?_getD, List.getD_eq_getElem?_getD, ← e1, ← e2, hagree]
  refine ⟨?_, hcum⟩
  simp only [opOutcomeBars, OutcomeBars.mk.injEq, true_and]
  refine ⟨?_, ?_, ?_⟩
  · exact List.map_congr_left (fun idx hidx =>
      hgd idx (List.mem_range.mp hidx))
  · refine List.map_congr_left (fun idx hidx => ?_)
    rw [hcum, hgd idx (List.mem_range.mp hidx)]
  · refine List.map_congr_left (fun idx hidx => ?_)
    rw [hcum, hgd idx (List.mem_range.mp hidx)]

/-- Witness for C5: `[3,1,2,0]` and `[3,1,9,9]` agree on their first two
entries, so with a two-label legend they produce identical bar data. -/
theorem first_num_types_only_witness :
    opOutcomeBars "a" [3, 1, 2, 0] 2 = opOutcomeBars "a" [3, 1, 9, 9] 2
    ∧ cumulativeCounts [3, 1, 2, 0] 2 = cumulativeCounts [3, 1, 9, 9] 2 :=
  first_num_types_only_spec "a" [3, 1, 2, 0] [3, 1, 9, 9] 2 (by decide)
    (by decide) (by decide)

/-- Claim C6: for every 4-entry count vector with non-negative entries and
every `numTypes` in `[1,4]`, the produced `segmentStarts` sequence starts at
0, is non-decreasing, and satisfies
`segmentStarts[k] + segmentWidths[k] = cumulative[k]` for every
`k < numTypes`. -/
theorem starts_invariants_spec (counts : List ℕ) (numTypes : ℕ)
    (hlen : counts.length = 4) (h1 : 1 ≤ numTypes) (h4 : numTypes ≤ 4) :
    (segmentStarts counts numTypes)[0]? = some 0
    ∧ List.Chain' (fun a b => a ≤ b) (segmentStarts counts numTypes)
    ∧ ∀ k, k < numTypes →
        (segmentStarts counts numTypes).getD k 0
            + (segmentWidths counts numTypes).getD k 0
          = (cumulativeCounts counts numTypes).getD k 0 := by
  have hn : numTypes ≤ counts.length := by omega
  refine ⟨?_, ?_, ?_⟩
  · rw [segmentStarts_getElem? counts numTypes 0 (by omega) hn]
    simp
  · rw [List.chain'_iff_get]
    intro i hi
    have hlen' : (segmentStarts counts numTypes).length = numTypes := by
      rw [segmentStarts, List.length_map, List.length_range]
    have hi1 : i < numTypes := by omega
    have hi2 : i + 1 < numTypes := by omega
    have b1 : i < (segmentStarts counts numTypes).length := by omega
    have b2 : i + 1 < (segmentStarts counts numTypes).length := by omega
    have v1 : (segmentStarts counts numTypes)[i] = (counts.take i).sum :=
      Option.some.inj ((List.getElem?_eq_getElem b1).symm.trans
        (segmentStarts_getElem? counts numTypes i hi1 hn))
    have v2 : (segmentStarts counts numTypes)[i + 1] = (counts.take (i + 1)).sum :=
      Option.some.inj ((List.getElem?_eq_getElem b2).symm.trans
        (segmentStarts_getElem? counts numTypes (i + 1) hi2 hn))
    rw [List.get_eq_getElem, List.get_eq_getElem, v1, v2]
    exact take_sum_le_succ counts i
  · intro k hk
    rw [List.getD_eq_getElem?_getD (segmentStarts counts numTypes),
      segmentStarts_getElem? counts numTypes k hk hn,
      List.getD_eq_getElem?_getD (segmentWidths counts numTypes),
      segmentWidths_getElem? counts numTypes k hk,
      Option.getD_some, Option.getD_some,
      cumulativeCounts_getD counts numTypes k hk hn,
      take_succ_sum counts k (by omega)]

/-- Witness for C6 at the spec example `counts = [3,1,2,0]`, `numTypes = 4`. -/
theorem starts_invariants_witness :
    (segmentStarts [3, 1, 2, 0] 4)[0]? = some 0
    ∧ List.Chain' (fun a b => a ≤ b) (segmentStarts [3, 1, 2, 0] 4)
    ∧ ∀ k, k < 4 →
        (segmentStarts [3, 1, 2, 0] 4).getD k 0
            + (segmentWidths [3, 1, 2, 0] 4).getD k 0
          = (cumulativeCounts [3, 1, 2, 0] 4).getD k 0 :=
  starts_invariants_spec [3, 1, 2, 0] 4 (by decide) (by decide) (by decide)

/-- Claim C7, amended: a `Result` built without statistics fails the
statistics accessor with the missing-data message; one built with a
statistics object whose boolean conversion is `True` gets that object back;
and `best_state` always returns the stored best.  (The unamended claim —
any supplied statistics object is returned — fails for a supplied object
whose boolean conversion is `False`; see the counterexample.) -/
theorem accessors_amended_spec {α : Type} (b : α) (s : Statistics)
    (hs : s.truthy = true) (o : Option Statistics) :
    (Result.mk b none).statistics = .error noStatisticsMessage
    ∧ (Result.mk b (some s)).statistics = .ok s
    ∧ (Result.mk b o).best_state = b := by
  refine ⟨rfl, ?_, rfl⟩
  simp [Result.statistics, hs]

/-- Witness for C7 at a concrete truthy statistics object. -/
theorem accessors_amended_witness :
    (Result.mk (0 : ℕ) none).statistics = .error noStatisticsMessage
    ∧ (Result.mk (0 : ℕ) (some truthyStats)).statistics = .ok truthyStats
    ∧ (Result.mk (0 : ℕ) (some truthyStats)).best_state = 0 :=
  accessors_amended_spec (0 : ℕ) truthyStats rfl (some truthyStats)

/-- Counterexample to C7 as stated: this `Result` was constructed with a
statistics object supplied, yet the accessor raises instead of returning
it, because the object's boolean conversion is `False`. -/
theorem supplied_telemetry_counterexample :
    (Result.mk () (some falsyStats)).stats = some falsyStats
    ∧ (Result.mk () (some falsyStats)).statistics ≠ .ok falsyStats
    ∧ (Result.mk () (some falsyStats)).statistics = .error noStatisticsMessage := by
  refine ⟨rfl, ?_, rfl⟩
  intro hcontra
  simp [Result.statistics, falsyStats] at hcontra

/-- Claim C8: the weight-chart builder emits one series per mapping entry,
in insertion order, with the series values preserved; in particular keys
`["A","B"]` in that order yield the two value series in that order. -/
theorem weight_series_order_spec (w : List (String × List ℚ)) :
    (weightSeriesOf w).length = w.length
    ∧ (∀ i : ℕ, (weightSeriesOf w)[i]? = (w[i]?).map Prod.snd)
    ∧ (∀ va vb : List ℚ, weightSeriesOf [("A", va), ("B", vb)] = [va, vb])
    ∧ ∀ s : Statistics,
        plot_operator_weights s
          = (weightSeriesOf s.destroy_weights, weightSeriesOf s.repair_weights) :=
  ⟨List.length_map w _,
    fun i => List.getElem?_map _ w i,
    fun va vb => rfl,
    fun s => rfl⟩

/-- Claim C9: the empty objectives sequence yields an empty trajectory (both
series empty) and no error. -/
theorem empty_objectives_spec :
    plot_objectives [] = { current := [], runningBest := [] } :=
  rfl

/-- Claim C10: the telemetry accessor gates on truthiness, not absence: a
`Result` holding a supplied statistics object whose boolean conversion is
`False` still fails with the missing-data error. -/
theorem truthiness_gate_spec :
    falsyStats.truthy = false
    ∧ (Result.mk (0 : ℕ) (some falsyStats)).stats ≠ none
    ∧ (Result.mk (0 : ℕ) (some falsyStats)).statistics
        = .error noStatisticsMessage := by
  refine ⟨rfl, ?_, rfl⟩
  simp

end ALNS
